import Mathlib

/-!
Verification development for the LinkedIn scraping orchestration client
(`src/lib/apify.ts`).  The JavaScript source is shallowly embedded: async
functions become pure Lean functions over explicit state, the network is an
oracle argument (attempt index to outcome), awaited delays are recorded in
traces, and thrown `Error` values become an explicit error type carrying the
`name` and `message` fields that the source inspects.
-/

set_option autoImplicit false
set_option maxRecDepth 4096

universe u

/-- A thrown JavaScript `Error`: the source only ever inspects `error.name`
(for `AbortError`) and `error.message`. -/
structure JsError where
  name : String
  message : String
deriving DecidableEq, Repr

deriving instance DecidableEq for Except

/-- Model of JavaScript `String.prototype.includes` on character lists:
some suffix of the haystack starts with the needle. -/
def includesAux (sub : List Char) : List Char → Bool
  | [] => sub.isEmpty
  | c :: rest => sub.isPrefixOf (c :: rest) || includesAux sub rest

/-- `includesStr s sub` models the JavaScript expression `s.includes(sub)`. -/
def includesStr (s sub : String) : Bool :=
  includesAux sub.data s.data

/-- `strStartsWith s p` models the JavaScript expression `s.startsWith(p)`. -/
def strStartsWith (s p : String) : Bool :=
  p.data.isPrefixOf s.data

/-- Model of `status.toLowerCase()` (ASCII suffices for the status strings). -/
def strToLower (s : String) : String :=
  String.mk (s.data.map Char.toLower)

/-- One attempt of the underlying `fetch` inside `apifyFetchWithRetry`:
either the promise resolves to a `Response` (any status) or it rejects
(network error `TypeError: Failed to fetch`, or the 120s `AbortError`
timeout installed at apify.ts:29-30). -/
inductive HttpAttempt where
  | resp (status : Nat) (statusText : String) (body : String)
  | thrown (e : JsError)
deriving DecidableEq, Repr

/-- The `Response` object as far as the source consumes it. -/
structure Resp where
  status : Nat
  statusText : String
  body : String
deriving DecidableEq, Repr

/-- `response.ok`: status in the 200-299 range. -/
def respOk (status : Nat) : Bool :=
  200 ≤ status && status < 300

/-- apify.ts:52 - the quota/limit/usage vocabulary test on the error body. -/
def quotaVocab (body : String) : Bool :=
  includesStr body "quota" || includesStr body "limit" || includesStr body "usage"

/-- The message built at apify.ts:58 and apify.ts:62. -/
def apiErrMsg (status : Nat) (statusText : String) : String :=
  "Apify API error " ++ toString status ++ ": " ++ statusText

def timeoutMsg : String :=
  "Apify API request timeout. The service may be slow to respond. Please try again."

def cannotReachMsg : String :=
  "Cannot reach Apify API. Please check your internet connection and try again."

def maxRetriesMsg : String :=
  "Max retries exceeded for Apify API call"

/-- Result of the `try` block body of one loop iteration of
`apifyFetchWithRetry` (apify.ts:27-64): the response is returned, an error is
thrown (to be handled by the `catch` clause), or - for a 5xx response on a
non-final attempt - control falls through to the next iteration with neither
a throw nor a backoff delay. -/
inductive TryOutcome where
  | success (r : Resp)
  | thrown (e : JsError)
  | looped
deriving DecidableEq, Repr

/-- The `try` block body at apify.ts:27-64 for attempt `i` (0-based) out of
`retries`. -/
def fetchTry (retries i : Nat) : HttpAttempt → TryOutcome
  | HttpAttempt.resp st stext body =>
    if respOk st then TryOutcome.success ⟨st, stext, body⟩
    else if (st == 402 || st == 429) && quotaVocab body then
      TryOutcome.thrown ⟨"Error", "QUOTA_EXCEEDED"⟩
    else if 400 ≤ st && st < 500 then
      TryOutcome.thrown ⟨"Error", apiErrMsg st stext⟩
    else if i == retries - 1 then
      TryOutcome.thrown ⟨"Error", apiErrMsg st stext⟩
    else
      TryOutcome.looped
  | HttpAttempt.thrown e => TryOutcome.thrown e

/-- Decision taken by the `catch` clause at apify.ts:65-90: rethrow an error
(ending the call) or sleep `2^i * 1000` ms and retry.  The retry branch is
reached exactly when `i < retries - 1` (the throwing branches cover
`i = retries - 1`). -/
inductive CatchOutcome where
  | rethrow (e : JsError)
  | retryAfterDelay (d : Nat)
deriving DecidableEq, Repr

/-- The `catch` clause at apify.ts:65-90 for attempt `i`. -/
def fetchCatch (retries i : Nat) (e : JsError) : CatchOutcome :=
  if e.message == "QUOTA_EXCEEDED" then CatchOutcome.rethrow e
  else if e.name == "AbortError" then
    if i == retries - 1 then CatchOutcome.rethrow ⟨"Error", timeoutMsg⟩
    else CatchOutcome.retryAfterDelay (2 ^ i * 1000)
  else if includesStr e.message "Failed to fetch" then
    if i == retries - 1 then CatchOutcome.rethrow ⟨"Error", cannotReachMsg⟩
    else CatchOutcome.retryAfterDelay (2 ^ i * 1000)
  else CatchOutcome.rethrow e

/-- Observable outcome of one `apifyFetchWithRetry` call: the returned
response or thrown error, the backoff delays awaited (in order), and the
number of fetch attempts issued. -/
structure FetchTrace where
  result : Except JsError Resp
  delays : List Nat
  attemptsUsed : Nat
deriving DecidableEq, Repr

/-- The retry loop of `apifyFetchWithRetry` (apify.ts:26-91).  `fuel`
mirrors the loop bound `i < retries` (it starts at `retries` and each
iteration consumes one unit while `i` advances), so running out of fuel is
exactly the loop exit at apify.ts:93. -/
def apifyFetchGo (oracle : Nat → HttpAttempt) (retries : Nat) :
    Nat → Nat → List Nat → FetchTrace
  | 0, i, acc => ⟨Except.error ⟨"Error", maxRetriesMsg⟩, acc.reverse, i⟩
  | fuel + 1, i, acc =>
    match fetchTry retries i (oracle i) with
    | TryOutcome.success r => ⟨Except.ok r, acc.reverse, i + 1⟩
    | TryOutcome.looped => apifyFetchGo oracle retries fuel (i + 1) acc
    | TryOutcome.thrown e =>
      match fetchCatch retries i e with
      | CatchOutcome.rethrow e2 => ⟨Except.error e2, acc.reverse, i + 1⟩
      | CatchOutcome.retryAfterDelay d =>
        apifyFetchGo oracle retries fuel (i + 1) (d :: acc)

/-- `apifyFetchWithRetry(url, options, retries)` (apify.ts:25-94), with the
network abstracted as `oracle : attempt index → outcome`. -/
def apifyFetchWithRetry (oracle : Nat → HttpAttempt) (retries : Nat) : FetchTrace :=
  apifyFetchGo oracle retries retries 0 []

/-- Per-key usage ledger entry (apify.ts:99, 109). -/
structure KeyStats where
  used : Nat
  failed : Nat
  lastUsed : Nat
deriving DecidableEq, Repr

/-- A scraped result record; the source treats records as opaque (`any[]`). -/
abbrev Record := String

/-- The mutable fields of an `ApifyService` instance (apify.ts:96-100).
`combinedResults` embeds the `_combinedResults` field; the key-usage map is
an association list keyed by the API key string; timestamps (`new Date()`)
are abstract `Nat` clock values passed in by the caller. -/
structure ServiceState where
  apiKeys : List String
  currentKeyIndex : Nat
  keyUsageStats : List (String × KeyStats)
  combinedResults : Option (List Record)
deriving DecidableEq, Repr

/-- The constructor (apify.ts:102-113) for a list of API keys; `now` models
`new Date()`. -/
def mkService (apiKeys : List String) (now : Nat) : ServiceState :=
  { apiKeys := apiKeys
    currentKeyIndex := 0
    keyUsageStats := apiKeys.map (fun k => (k, ⟨0, 0, now⟩))
    combinedResults := none }

/-- `getCurrentApiKey` (apify.ts:115-117). -/
def getCurrentApiKey (s : ServiceState) : String :=
  s.apiKeys.getD s.currentKeyIndex ""

/-- `switchToNextApiKey` (apify.ts:119-141).  The `do`-`while` body runs at
most once: it advances `currentKeyIndex` by one in ring order and then either
returns `false` (the new index equals the original one, possible only for a
singleton key list) or returns `true` unconditionally. -/
def switchToNextApiKey (s : ServiceState) : Bool × ServiceState :=
  let newIndex := (s.currentKeyIndex + 1) % s.apiKeys.length
  if newIndex == s.currentKeyIndex then
    (false, { s with currentKeyIndex := newIndex })
  else
    (true, { s with currentKeyIndex := newIndex })

/-- `updateKeyStats` (apify.ts:143-154). -/
def updateKeyStats (s : ServiceState) (apiKey : String) (success : Bool) (now : Nat) :
    ServiceState :=
  { s with keyUsageStats := s.keyUsageStats.map (fun p =>
      if p.1 = apiKey then
        (p.1, { used := if success then p.2.used + 1 else p.2.used
                failed := if success then p.2.failed else p.2.failed + 1
                lastUsed := now })
      else p) }

def allKeysExhaustedMsg : String :=
  "All API keys have reached their quota limits. Please wait for quota reset or add more API keys."

/-- The `makeApifyRequest(url, options, false)` recursive call (apify.ts:179):
with `canSwitchKey = false` the quota branch is disabled, so the outcome of
`apifyFetchWithRetry` under the current key (`att`, indexed by key index) is
returned or rethrown unchanged, after recording the key outcome. -/
def makeApifyRequestNoSwitch {α : Type u} (att : Nat → Except JsError α) (now : Nat)
    (s : ServiceState) : Except JsError α × ServiceState :=
  match att s.currentKeyIndex with
  | Except.ok r => (Except.ok r, updateKeyStats s (getCurrentApiKey s) true now)
  | Except.error e => (Except.error e, updateKeyStats s (getCurrentApiKey s) false now)

/-- `makeApifyRequest` (apify.ts:156-187) with `canSwitchKey` explicit.  The
transport call `apifyFetchWithRetry` is abstracted as `att : key index →
outcome`.  On a `QUOTA_EXCEEDED` error with `canSwitchKey` set, one key
rotation is attempted and the request is retried once via
`makeApifyRequestNoSwitch`; if rotation reports exhaustion the
all-keys-exhausted error is thrown instead (apify.ts:181). -/
def makeApifyRequest {α : Type u} (att : Nat → Except JsError α) (now : Nat)
    (canSwitchKey : Bool) (s : ServiceState) : Except JsError α × ServiceState :=
  match att s.currentKeyIndex with
  | Except.ok r => (Except.ok r, updateKeyStats s (getCurrentApiKey s) true now)
  | Except.error e =>
    let s1 := updateKeyStats s (getCurrentApiKey s) false now
    if e.message == "QUOTA_EXCEEDED" && canSwitchKey then
      match switchToNextApiKey s1 with
      | (true, s2) => makeApifyRequestNoSwitch att now s2
      | (false, s2) => (Except.error ⟨"Error", allKeysExhaustedMsg⟩, s2)
    else (Except.error e, s1)

/-- The `data` object of a run-creation response (apify.ts:1-7). -/
structure ApifyRunData where
  id : String
  defaultDatasetId : String
  status : String
deriving DecidableEq, Repr

/-- Environment for one `scrapeProfiles` run.  `submit bi k` is the outcome
of the batch-`bi` run-creation transport call under key index `k`
(apify.ts:249-257, routed through `makeApifyRequest`); `await rid` is the
outcome of `waitForRunCompletion(rid)` (apify.ts:263); `fetchItems did` the
outcome of `getDatasetItems(did)` for the real dataset id (apify.ts:265).
The latter two are modelled as state-independent oracles. -/
structure OrchestratorEnv where
  submit : Nat → Nat → Except JsError ApifyRunData
  await : String → Except JsError Unit
  fetchItems : String → Except JsError (List Record)

/-- The body of one batch iteration up to the point where either the fetched
items are in hand or an error has been thrown (apify.ts:248-265). -/
def batchAttempt (env : OrchestratorEnv) (bi now : Nat) (s : ServiceState) :
    Except JsError (List Record) × ServiceState :=
  match makeApifyRequest (env.submit bi) now true s with
  | (Except.error e, s1) => (Except.error e, s1)
  | (Except.ok run, s1) =>
    match env.await run.id with
    | Except.error e => (Except.error e, s1)
    | Except.ok _ =>
      match env.fetchItems run.defaultDatasetId with
      | Except.error e => (Except.error e, s1)
      | Except.ok items => (Except.ok items, s1)

/-- Observable events of a `scrapeProfiles` run, in chronological order:
`onProgress` invocations, run-submission requests, the fixed inter-batch
delay, and the end of each batch iteration (`skipped` records whether the
`continue` branch at apify.ts:287 was taken). -/
inductive OrchEvent where
  | progressEv (current total : Nat)
  | submitEv (batchIndex : Nat)
  | interBatchDelay (ms : Nat)
  | batchEnd (batchIndex : Nat) (skipped : Bool)
deriving DecidableEq, Repr

/-- Outcome of one `scrapeProfiles` call: the returned (synthetic) dataset id
or the thrown error, the final service state, and the event trace. -/
structure ScrapeOutcome where
  result : Except JsError String
  finalState : ServiceState
  events : List OrchEvent
deriving DecidableEq, Repr

/-- The batch loop of `scrapeProfiles` (apify.ts:238-292) plus the epilogue
(apify.ts:297-301) and the outer catch (apify.ts:302-308).  Events are
accumulated newest-first in `evs` and reversed on exit.  On a per-batch
error, the message is tested for the substring `quota` (apify.ts:285): if it
occurs the batch is skipped (`continue`), otherwise the error is rethrown,
aborting the run with the wrapper message of apify.ts:305. -/
def scrapeGo (env : OrchestratorEnv) (now total numBatches : Nat) :
    List (List String) → Nat → Nat → List Record → ServiceState → List OrchEvent →
    ScrapeOutcome
  | [], _, _, acc, s, evs =>
    { result := Except.ok ("combined-" ++ toString now)
      finalState := { s with combinedResults := some acc }
      events := evs.reverse }
  | batch :: rest, bi, processed, acc, s, evs =>
    match batchAttempt env bi now s with
    | (Except.ok items, s1) =>
      let processed2 := processed + batch.length
      let evs2 := OrchEvent.progressEv processed2 total :: OrchEvent.submitEv bi ::
        OrchEvent.progressEv processed total :: evs
      let evs3 := if bi < numBatches - 1 then OrchEvent.interBatchDelay 3000 :: evs2 else evs2
      scrapeGo env now total numBatches rest (bi + 1) processed2 (acc ++ items) s1
        (OrchEvent.batchEnd bi false :: evs3)
    | (Except.error e, s1) =>
      if includesStr e.message "quota" then
        scrapeGo env now total numBatches rest (bi + 1) processed acc s1
          (OrchEvent.batchEnd bi true :: OrchEvent.submitEv bi ::
            OrchEvent.progressEv processed total :: evs)
      else
        { result := Except.error ⟨"Error", "Failed to scrape profiles: " ++ e.message⟩
          finalState := s1
          events := (OrchEvent.submitEv bi :: OrchEvent.progressEv processed total :: evs).reverse }

/-- `BATCH_SIZE` (apify.ts:226). -/
def BATCH_SIZE : Nat := 25

/-- The batch-building loop at apify.ts:229-231, with fuel equal to the list
length (each step consumes at least one URL since the slice size is
positive). -/
def mkBatchesGo (size : Nat) : Nat → List String → List (List String)
  | 0, _ => []
  | _, [] => []
  | fuel + 1, urls => urls.take size :: mkBatchesGo size fuel (urls.drop size)

/-- Partition of the URL list into consecutive slices of at most `size`. -/
def mkBatches (size : Nat) (urls : List String) : List (List String) :=
  mkBatchesGo size urls.length urls

/-- `scrapeProfiles` (apify.ts:220-309); `onProgress` invocations are
recorded as `progressEv` events. -/
def scrapeProfiles (env : OrchestratorEnv) (now : Nat) (urls : List String)
    (s : ServiceState) : ScrapeOutcome :=
  let batches := mkBatches BATCH_SIZE urls
  scrapeGo env now urls.length batches.length batches 0 0 [] s []

/-- `maxWaitTime` (apify.ts:312). -/
def maxWaitTime : Nat := 15 * 60 * 1000

/-- `pollInterval` (apify.ts:313). -/
def pollInterval : Nat := 8000

/-- Outcome of `waitForRunCompletion`: the result and the number of status
checks issued. -/
structure PollTrace where
  result : Except JsError Unit
  checks : Nat
deriving DecidableEq, Repr

/-- The polling loop of `waitForRunCompletion` (apify.ts:318-340).  `check n`
is the outcome of the `n`-th `checkRunStatus` call; the clock `t` advances by
`pollInterval` at each sleep (the status checks themselves are modelled as
instantaneous).  Note that the `FAILED`/`ABORTED` throw at apify.ts:327 sits
inside the `try`, so it is handled by the same `catch` (apify.ts:331-337) as
a transient status-check error: it propagates only within one poll interval
of the deadline.  The fuel bound 1000 exceeds `maxWaitTime / pollInterval`,
so the fuel-exhausted branch is unreachable; it returns the timeout error of
apify.ts:340, which is also the result when `t` passes `maxWaitTime`. -/
def waitGo (check : Nat → Except JsError String) : Nat → Nat → Nat → PollTrace
  | 0, n, _ => ⟨Except.error ⟨"Error", "Apify run timed out after 15 minutes"⟩, n⟩
  | fuel + 1, n, t =>
    if t < maxWaitTime then
      match check n with
      | Except.ok status =>
        if status == "SUCCEEDED" then ⟨Except.ok (), n + 1⟩
        else if status == "FAILED" || status == "ABORTED" then
          if maxWaitTime - pollInterval ≤ t then
            ⟨Except.error ⟨"Error", "Apify run " ++ strToLower status⟩, n + 1⟩
          else waitGo check fuel (n + 1) (t + pollInterval)
        else waitGo check fuel (n + 1) (t + pollInterval)
      | Except.error e =>
        if maxWaitTime - pollInterval ≤ t then ⟨Except.error e, n + 1⟩
        else waitGo check fuel (n + 1) (t + pollInterval)
    else ⟨Except.error ⟨"Error", "Apify run timed out after 15 minutes"⟩, n⟩

/-- `waitForRunCompletion` (apify.ts:311-341). -/
def waitForRunCompletion (check : Nat → Except JsError String) : PollTrace :=
  waitGo check 1000 0 0

/-- `getDatasetItems` (apify.ts:343-366).  Returns the result, the state
after the call, and the number of network (transport) requests issued.  The
cached branch (apify.ts:348-352) requires the id to start with `combined-`
and `_combinedResults` to be set; otherwise one request goes through
`makeApifyRequest` (`att` is the transport outcome per key index) and errors
are wrapped (apify.ts:362). -/
def getDatasetItems (att : Nat → Except JsError (List Record)) (now : Nat)
    (s : ServiceState) (datasetId : String) :
    Except JsError (List Record) × ServiceState × Nat :=
  if strStartsWith datasetId "combined-" && s.combinedResults.isSome then
    (Except.ok (s.combinedResults.getD []), s, 0)
  else
    match makeApifyRequest att now true s with
    | (Except.ok data, s1) => (Except.ok data, s1, 1)
    | (Except.error e, s1) =>
      (Except.error ⟨"Error", "Failed to fetch dataset items: " ++ e.message⟩, s1, 1)

/-- 26 distinct profile URLs: two batches of sizes 25 and 1. -/
def urls26 : List String := (List.range 26).map (fun n => "u" ++ toString n)

/-- 60 distinct profile URLs: the 60-URL scenario of the specification. -/
def urls60 : List String := (List.range 60).map (fun n => "u" ++ toString n)

/-- Transport outcome oracle: every key yields `QUOTA_EXCEEDED`. -/
def attQuota : Nat → Except JsError Unit :=
  fun _ => Except.error ⟨"Error", "QUOTA_EXCEEDED"⟩

/-- Run data returned by the successful submissions in the concrete runs. -/
def runData1 : ApifyRunData := ⟨"run1", "ds1", "RUNNING"⟩

/-- Environment in which batch 0 fails with a generic 400 error and every
other batch would succeed. -/
def envBad400 : OrchestratorEnv where
  submit := fun bi _ =>
    if bi = 0 then Except.error ⟨"Error", apiErrMsg 400 "Bad Request"⟩
    else Except.ok runData1
  await := fun _ => Except.ok ()
  fetchItems := fun _ => Except.ok ["rec"]

/-- Environment in which batch 0 hits a quota error at the transport layer
and every other batch succeeds. -/
def envQuotaFirst : OrchestratorEnv where
  submit := fun bi _ =>
    if bi = 0 then Except.error ⟨"Error", "QUOTA_EXCEEDED"⟩
    else Except.ok runData1
  await := fun _ => Except.ok ()
  fetchItems := fun _ => Except.ok ["rec"]

/-- Environment in which batch 0 succeeds and every later batch hits a quota
error at the transport layer. -/
def envQuotaSecond : OrchestratorEnv where
  submit := fun bi _ =>
    if bi = 0 then Except.ok runData1
    else Except.error ⟨"Error", "QUOTA_EXCEEDED"⟩
  await := fun _ => Except.ok ()
  fetchItems := fun _ => Except.ok ["rec"]

/-- Fully successful environment. -/
def envOk : OrchestratorEnv where
  submit := fun _ _ => Except.ok runData1
  await := fun _ => Except.ok ()
  fetchItems := fun _ => Except.ok []

/-- The run data `envOk.submit` always returns. -/
def runOfOk : Nat → Nat → ApifyRunData := fun _ _ => runData1

/-- The items `envOk.fetchItems` always returns. -/
def itemsOfOk : String → List Record := fun _ => []

/-- Fetch oracle: a 4xx response whose status text contains the substring
`Failed to fetch`. -/
def oracle400FTF : Nat → HttpAttempt :=
  fun _ => HttpAttempt.resp 400 "Failed to fetch" ""

/-- Fetch oracle: 5xx on the first two attempts, success on the third. -/
def oracle500Ok : Nat → HttpAttempt :=
  fun i => if i < 2 then HttpAttempt.resp 500 "Internal Server Error" ""
    else HttpAttempt.resp 200 "OK" "done"

/-- Fetch oracle: per-attempt timeout on the first two attempts, success on
the third. -/
def oracleAbortOk : Nat → HttpAttempt :=
  fun i => if i < 2 then HttpAttempt.thrown ⟨"AbortError", "The user aborted a request."⟩
    else HttpAttempt.resp 200 "OK" "done"

/-- Fetch oracle: every attempt times out. -/
def oracleAbort : Nat → HttpAttempt :=
  fun _ => HttpAttempt.thrown ⟨"AbortError", "The user aborted a request."⟩

/-- Fetch oracle: every attempt yields a 5xx response. -/
def oracle500 : Nat → HttpAttempt :=
  fun _ => HttpAttempt.resp 500 "Internal Server Error" ""

/-- The submission events of a trace. -/
def isSubmitEv : OrchEvent → Bool
  | OrchEvent.submitEv _ => true
  | _ => false

/-- Number of run-submission requests in a trace. -/
def countSubmits (evs : List OrchEvent) : Nat :=
  List.countP isSubmitEv evs

/-- Projection of an event to an `onProgress` invocation. -/
def progressOf : OrchEvent → Option (Nat × Nat)
  | OrchEvent.progressEv c t => some (c, t)
  | _ => none

/-- The `(processed, total)` pairs reported by `onProgress`, in order. -/
def progressTrace (evs : List OrchEvent) : List (Nat × Nat) :=
  List.filterMap progressOf evs

/-- The `onProgress` pairs a fully successful run reports, starting from
cumulative count `p`: before each batch the running count, after each batch
the count advanced by the batch length (apify.ts:244-246 and 271-273). -/
def expectedProgress (total : Nat) : Nat → List (List String) → List (Nat × Nat)
  | _, [] => []
  | p, b :: bs => (p, total) :: (p + b.length, total) :: expectedProgress total (p + b.length) bs

theorem countSubmits_reverse (evs : List OrchEvent) :
    countSubmits evs.reverse = countSubmits evs := by
  simp [countSubmits, List.countP_reverse]

theorem progressTrace_reverse (evs : List OrchEvent) :
    progressTrace evs.reverse = (progressTrace evs).reverse := by
  simp [progressTrace, List.filterMap_reverse]

theorem isPrefixOf_append_self {α : Type u} [BEq α] [LawfulBEq α] (l r : List α) :
    l.isPrefixOf (l ++ r) = true := by
  rw [List.isPrefixOf_iff_prefix]
  exact List.prefix_append l r

theorem strStartsWith_append (p r : String) : strStartsWith (p ++ r) p = true := by
  unfold strStartsWith
  rw [String.data_append]
  exact isPrefixOf_append_self _ _

theorem mkBatchesGo_flatten (size : Nat) (hsize : 0 < size) :
    ∀ (fuel : Nat) (urls : List String), urls.length ≤ fuel →
      (mkBatchesGo size fuel urls).flatten = urls := by
  intro fuel
  induction fuel with
  | zero =>
    intro urls h
    have hnil : urls = [] := List.length_eq_zero.mp (Nat.le_zero.mp h)
    subst hnil
    rfl
  | succ n ih =>
    intro urls h
    cases urls with
    | nil => rfl
    | cons a as =>
      have hdrop : (List.drop size (a :: as)).length ≤ n := by
        rw [List.length_drop]
        simp only [List.length_cons] at h ⊢
        omega
      show (List.take size (a :: as) :: mkBatchesGo size n (List.drop size (a :: as))).flatten
        = a :: as
      rw [List.flatten_cons, ih _ hdrop, List.take_append_drop]

theorem mkBatchesGo_length (size : Nat) (hsize : 0 < size) :
    ∀ (fuel : Nat) (urls : List String), urls.length ≤ fuel →
      (mkBatchesGo size fuel urls).length = (urls.length + size - 1) / size := by
  intro fuel
  induction fuel with
  | zero =>
    intro urls h
    have hnil : urls = [] := List.length_eq_zero.mp (Nat.le_zero.mp h)
    subst hnil
    simp [mkBatchesGo, Nat.div_eq_of_lt (show size - 1 < size by omega)]
  | succ n ih =>
    intro urls h
    cases urls with
    | nil => simp [mkBatchesGo, Nat.div_eq_of_lt (show size - 1 < size by omega)]
    | cons a as =>
      have hdrop : (List.drop size (a :: as)).length ≤ n := by
        rw [List.length_drop]
        simp only [List.length_cons] at h ⊢
        omega
      have hstep : (mkBatchesGo size (n + 1) (a :: as)).length
          = (mkBatchesGo size n (List.drop size (a :: as))).length + 1 := by
        simp [mkBatchesGo]
      rw [hstep, ih _ hdrop, List.length_drop]
      have hpos : 1 ≤ (a :: as).length := by simp
      have h1 : (a :: as).length + size - 1 = ((a :: as).length - 1) + size := by omega
      rcases Nat.lt_or_ge (a :: as).length size with hlt | hge
      · have h0 : (a :: as).length - size = 0 := by omega
        rw [h0, h1, Nat.add_div_right _ hsize]
        rw [Nat.div_eq_of_lt (show (a :: as).length - 1 < size by omega)]
        rw [show 0 + size - 1 = size - 1 by omega]
        rw [Nat.div_eq_of_lt (show size - 1 < size by omega)]
      · have h2 : (a :: as).length - size + size - 1 = (a :: as).length - 1 := by omega
        rw [h2, h1, Nat.add_div_right _ hsize]

theorem mkBatchesGo_mem_length (size : Nat) :
    ∀ (fuel : Nat) (urls : List String) (b : List String),
      b ∈ mkBatchesGo size fuel urls → b.length ≤ size := by
  intro fuel
  induction fuel with
  | zero => intro urls b hb; simp [mkBatchesGo] at hb
  | succ n ih =>
    intro urls b hb
    cases urls with
    | nil => simp [mkBatchesGo] at hb
    | cons a as =>
      simp only [mkBatchesGo, List.mem_cons] at hb
      rcases hb with hb | hb
      · subst hb; exact List.length_take_le _ _
      · exact ih _ _ hb

theorem mkBatches_flatten (size : Nat) (hsize : 0 < size) (urls : List String) :
    (mkBatches size urls).flatten = urls :=
  mkBatchesGo_flatten size hsize urls.length urls (Nat.le_refl _)

theorem mkBatches_length (size : Nat) (hsize : 0 < size) (urls : List String) :
    (mkBatches size urls).length = (urls.length + size - 1) / size :=
  mkBatchesGo_length size hsize urls.length urls (Nat.le_refl _)

theorem mkBatches_mem_length (size : Nat) (urls : List String) (b : List String)
    (hb : b ∈ mkBatches size urls) : b.length ≤ size :=
  mkBatchesGo_mem_length size urls.length urls b hb

theorem mkBatches_sum_length (size : Nat) (hsize : 0 < size) (urls : List String) :
    ((mkBatches size urls).map List.length).sum = urls.length := by
  rw [← List.length_flatten, mkBatches_flatten size hsize]

theorem makeApifyRequest_of_ok {α : Type u} (att : Nat → Except JsError α) (now : Nat)
    (canSwitchKey : Bool) (s : ServiceState) (r : α)
    (h : att s.currentKeyIndex = Except.ok r) :
    makeApifyRequest att now canSwitchKey s =
      (Except.ok r, updateKeyStats s (getCurrentApiKey s) true now) := by
  unfold makeApifyRequest
  rw [h]

theorem switchToNextApiKey_two (s : ServiceState) (h2 : 2 ≤ s.apiKeys.length)
    (hi : s.currentKeyIndex < s.apiKeys.length) :
    switchToNextApiKey s =
      (true, { s with currentKeyIndex := (s.currentKeyIndex + 1) % s.apiKeys.length }) := by
  have hne : (s.currentKeyIndex + 1) % s.apiKeys.length ≠ s.currentKeyIndex := by
    rcases Nat.lt_or_ge (s.currentKeyIndex + 1) s.apiKeys.length with hlt | hge
    · rw [Nat.mod_eq_of_lt hlt]; omega
    · have hEq : s.currentKeyIndex + 1 = s.apiKeys.length := by omega
      rw [hEq, Nat.mod_self]; omega
  have hb : ((s.currentKeyIndex + 1) % s.apiKeys.length == s.currentKeyIndex) = false :=
    beq_eq_false_iff_ne.mpr hne
  unfold switchToNextApiKey
  simp only [hb, Bool.false_eq_true, if_false]

theorem switchToNextApiKey_single (s : ServiceState) (h1 : s.apiKeys.length = 1)
    (hi : s.currentKeyIndex < s.apiKeys.length) :
    switchToNextApiKey s =
      (false, { s with currentKeyIndex := (s.currentKeyIndex + 1) % s.apiKeys.length }) := by
  have hidx : s.currentKeyIndex = 0 := by omega
  have hmod : (s.currentKeyIndex + 1) % s.apiKeys.length = s.currentKeyIndex := by
    rw [h1, hidx]
  have hb : ((s.currentKeyIndex + 1) % s.apiKeys.length == s.currentKeyIndex) = true := by
    rw [hmod]
    exact beq_self_eq_true _
  unfold switchToNextApiKey
  simp only [hb, if_true]

theorem batchAttempt_of_ok (env : OrchestratorEnv) (runOf : Nat → Nat → ApifyRunData)
    (itemsOf : String → List Record)
    (hsub : ∀ bi k, env.submit bi k = Except.ok (runOf bi k))
    (hawait : ∀ rid, env.await rid = Except.ok ())
    (hfetch : ∀ did, env.fetchItems did = Except.ok (itemsOf did))
    (bi now : Nat) (s : ServiceState) :
    batchAttempt env bi now s =
      (Except.ok (itemsOf (runOf bi s.currentKeyIndex).defaultDatasetId),
       updateKeyStats s (getCurrentApiKey s) true now) := by
  simp only [batchAttempt, makeApifyRequest_of_ok _ _ _ _ _ (hsub bi s.currentKeyIndex),
    hawait, hfetch]

theorem scrapeGo_quota_skip (env : OrchestratorEnv) (now total nb : Nat)
    (batch : List String) (rest : List (List String)) (bi processed : Nat)
    (acc : List Record) (s : ServiceState) (evs : List OrchEvent)
    (e : JsError) (s1 : ServiceState)
    (herr : batchAttempt env bi now s = (Except.error e, s1))
    (hq : includesStr e.message "quota" = true) :
    scrapeGo env now total nb (batch :: rest) bi processed acc s evs =
      scrapeGo env now total nb rest (bi + 1) processed acc s1
        (OrchEvent.batchEnd bi true :: OrchEvent.submitEv bi ::
          OrchEvent.progressEv processed total :: evs) := by
  simp only [scrapeGo, herr, hq, if_true]

theorem scrapeGo_nonquota_abort (env : OrchestratorEnv) (now total nb : Nat)
    (batch : List String) (rest : List (List String)) (bi processed : Nat)
    (acc : List Record) (s : ServiceState) (evs : List OrchEvent)
    (e : JsError) (s1 : ServiceState)
    (herr : batchAttempt env bi now s = (Except.error e, s1))
    (hq : includesStr e.message "quota" = false) :
    scrapeGo env now total nb (batch :: rest) bi processed acc s evs =
      { result := Except.error ⟨"Error", "Failed to scrape profiles: " ++ e.message⟩
        finalState := s1
        events := (OrchEvent.submitEv bi :: OrchEvent.progressEv processed total :: evs).reverse } := by
  simp only [scrapeGo, herr, hq, Bool.false_eq_true, if_false]

theorem scrapeGo_ok_step (env : OrchestratorEnv) (now total nb : Nat)
    (batch : List String) (rest : List (List String)) (bi processed : Nat)
    (acc : List Record) (s : ServiceState) (evs : List OrchEvent)
    (items : List Record) (s1 : ServiceState)
    (hok : batchAttempt env bi now s = (Except.ok items, s1)) :
    scrapeGo env now total nb (batch :: rest) bi processed acc s evs =
      scrapeGo env now total nb rest (bi + 1) (processed + batch.length) (acc ++ items) s1
        (OrchEvent.batchEnd bi false ::
          (if bi < nb - 1 then
            OrchEvent.interBatchDelay 3000 ::
              OrchEvent.progressEv (processed + batch.length) total :: OrchEvent.submitEv bi ::
              OrchEvent.progressEv processed total :: evs
           else
            OrchEvent.progressEv (processed + batch.length) total :: OrchEvent.submitEv bi ::
              OrchEvent.progressEv processed total :: evs)) := by
  simp only [scrapeGo, hok]

theorem scrapeGo_events_extend (env : OrchestratorEnv) (now total nb : Nat) :
    ∀ (bs : List (List String)) (bi processed : Nat) (acc : List Record)
      (s : ServiceState) (evs : List OrchEvent),
      evs.reverse <+: (scrapeGo env now total nb bs bi processed acc s evs).events := by
  intro bs
  induction bs with
  | nil =>
    intro bi processed acc s evs
    simp [scrapeGo]
  | cons b rest ih =>
    intro bi processed acc s evs
    rcases hba : batchAttempt env bi now s with ⟨r, s1⟩
    cases r with
    | ok items =>
      rw [scrapeGo_ok_step env now total nb b rest bi processed acc s evs items s1 hba]
      by_cases hd : bi < nb - 1
      · rw [if_pos hd]
        refine List.IsPrefix.trans ?_ (ih _ _ _ _ _)
        simp only [List.reverse_cons, List.append_assoc]
        exact List.prefix_append _ _
      · rw [if_neg hd]
        refine List.IsPrefix.trans ?_ (ih _ _ _ _ _)
        simp only [List.reverse_cons, List.append_assoc]
        exact List.prefix_append _ _
    | error e =>
      by_cases hq : includesStr e.message "quota" = true
      · rw [scrapeGo_quota_skip env now total nb b rest bi processed acc s evs e s1 hba hq]
        refine List.IsPrefix.trans ?_ (ih _ _ _ _ _)
        simp only [List.reverse_cons, List.append_assoc]
        exact List.prefix_append _ _
      · rw [scrapeGo_nonquota_abort env now total nb b rest bi processed acc s evs e s1 hba
          (Bool.not_eq_true _ ▸ hq)]
        simp only [List.reverse_cons, List.append_assoc]
        exact List.prefix_append _ _

theorem scrapeGo_events_start (env : OrchestratorEnv) (now total nb : Nat)
    (b : List String) (rest : List (List String)) (bi processed : Nat)
    (acc : List Record) (s : ServiceState) (evs : List OrchEvent) :
    (evs.reverse ++ [OrchEvent.progressEv processed total, OrchEvent.submitEv bi]) <+:
      (scrapeGo env now total nb (b :: rest) bi processed acc s evs).events := by
  rcases hba : batchAttempt env bi now s with ⟨r, s1⟩
  cases r with
  | ok items =>
    rw [scrapeGo_ok_step env now total nb b rest bi processed acc s evs items s1 hba]
    by_cases hd : bi < nb - 1
    · rw [if_pos hd]
      refine List.IsPrefix.trans ?_ (scrapeGo_events_extend env now total nb rest _ _ _ _ _)
      simp only [List.reverse_cons, List.append_assoc]
      exact (List.prefix_append_right_inj _).mpr (List.prefix_append _ _)
    · rw [if_neg hd]
      refine List.IsPrefix.trans ?_ (scrapeGo_events_extend env now total nb rest _ _ _ _ _)
      simp only [List.reverse_cons, List.append_assoc]
      exact (List.prefix_append_right_inj _).mpr (List.prefix_append _ _)
  | error e =>
    by_cases hq : includesStr e.message "quota" = true
    · rw [scrapeGo_quota_skip env now total nb b rest bi processed acc s evs e s1 hba hq]
      refine List.IsPrefix.trans ?_ (scrapeGo_events_extend env now total nb rest _ _ _ _ _)
      simp only [List.reverse_cons, List.append_assoc]
      exact (List.prefix_append_right_inj _).mpr (List.prefix_append _ _)
    · rw [scrapeGo_nonquota_abort env now total nb b rest bi processed acc s evs e s1 hba
        (Bool.not_eq_true _ ▸ hq)]
      simp only [List.reverse_cons, List.append_assoc]
      exact (List.prefix_append_right_inj _).mpr (List.prefix_append _ _)

theorem scrapeGo_ok_run (env : OrchestratorEnv) (runOf : Nat → Nat → ApifyRunData)
    (itemsOf : String → List Record)
    (hsub : ∀ bi k, env.submit bi k = Except.ok (runOf bi k))
    (hawait : ∀ rid, env.await rid = Except.ok ())
    (hfetch : ∀ did, env.fetchItems did = Except.ok (itemsOf did))
    (now total nb : Nat) :
    ∀ (bs : List (List String)) (bi processed : Nat) (acc : List Record)
      (s : ServiceState) (evs : List OrchEvent),
      (scrapeGo env now total nb bs bi processed acc s evs).result =
          Except.ok ("combined-" ++ toString now)
        ∧ (∃ rs, (scrapeGo env now total nb bs bi processed acc s evs).finalState.combinedResults
            = some rs)
        ∧ countSubmits (scrapeGo env now total nb bs bi processed acc s evs).events
            = countSubmits evs + bs.length
        ∧ progressTrace (scrapeGo env now total nb bs bi processed acc s evs).events
            = (progressTrace evs).reverse ++ expectedProgress total processed bs := by
  intro bs
  induction bs with
  | nil =>
    intro bi processed acc s evs
    refine ⟨rfl, ⟨acc, rfl⟩, ?_, ?_⟩
    · show countSubmits evs.reverse = countSubmits evs + 0
      rw [countSubmits_reverse, Nat.add_zero]
    · show progressTrace evs.reverse = (progressTrace evs).reverse ++ expectedProgress total processed []
      rw [progressTrace_reverse]
      simp [expectedProgress]
  | cons b rest ih =>
    intro bi processed acc s evs
    have hba := batchAttempt_of_ok env runOf itemsOf hsub hawait hfetch bi now s
    rw [scrapeGo_ok_step env now total nb b rest bi processed acc s evs _ _ hba]
    by_cases hd : bi < nb - 1
    · rw [if_pos hd]
      obtain ⟨h1, h2, h3, h4⟩ := ih (bi + 1) (processed + b.length) (acc ++ _) _
        (OrchEvent.batchEnd bi false :: OrchEvent.interBatchDelay 3000 ::
          OrchEvent.progressEv (processed + b.length) total :: OrchEvent.submitEv bi ::
          OrchEvent.progressEv processed total :: evs)
      refine ⟨h1, h2, ?_, ?_⟩
      · rw [h3]
        simp only [countSubmits, List.countP_cons, isSubmitEv, List.length_cons]
        simp [countSubmits]
        omega
      · rw [h4]
        simp only [progressTrace, List.filterMap_cons, progressOf]
        simp only [List.reverse_cons, expectedProgress, List.append_assoc]
        simp [progressTrace]
    · rw [if_neg hd]
      obtain ⟨h1, h2, h3, h4⟩ := ih (bi + 1) (processed + b.length) (acc ++ _) _
        (OrchEvent.batchEnd bi false ::
          OrchEvent.progressEv (processed + b.length) total :: OrchEvent.submitEv bi ::
          OrchEvent.progressEv processed total :: evs)
      refine ⟨h1, h2, ?_, ?_⟩
      · rw [h3]
        simp only [countSubmits, List.countP_cons, isSubmitEv, List.length_cons]
        simp [countSubmits]
        omega
      · rw [h4]
        simp only [progressTrace, List.filterMap_cons, progressOf]
        simp only [List.reverse_cons, expectedProgress, List.append_assoc]
        simp [progressTrace]

theorem expectedProgress_getLast (total : Nat) :
    ∀ (bs : List (List String)) (p : Nat), bs ≠ [] →
      (expectedProgress total p bs).getLast? =
        some (p + (bs.map List.length).sum, total) := by
  intro bs
  induction bs with
  | nil => intro p h; exact absurd rfl h
  | cons b rest ih =>
    intro p _
    cases rest with
    | nil => simp [expectedProgress]
    | cons c cs =>
      have hne : (c :: cs : List (List String)) ≠ [] := by simp
      show ((p, total) :: (p + b.length, total) ::
        expectedProgress total (p + b.length) (c :: cs)).getLast? = _
      rw [List.getLast?_cons_cons]
      cases hx : expectedProgress total (p + b.length) (c :: cs) with
      | nil => simp [expectedProgress] at hx
      | cons y ys =>
        rw [List.getLast?_cons_cons, ← hx, ih (p + b.length) hne]
        simp only [List.map_cons, List.sum_cons]
        congr 2
        omega

theorem scrapeGo_progress_mono (env : OrchestratorEnv) (now total nb : Nat) :
    ∀ (bs : List (List String)) (bi processed : Nat) (acc : List Record)
      (s : ServiceState) (evs : List OrchEvent),
      List.Chain' (fun a b : Nat × Nat => b.1 ≤ a.1) (progressTrace evs) →
      (∀ q ∈ (progressTrace evs).head?, q.1 ≤ processed) →
      List.Chain' (fun a b : Nat × Nat => a.1 ≤ b.1)
        (progressTrace (scrapeGo env now total nb bs bi processed acc s evs).events) := by
  intro bs
  induction bs with
  | nil =>
    intro bi processed acc s evs h1 _
    show List.Chain' _ (progressTrace evs.reverse)
    rw [progressTrace_reverse, List.chain'_reverse]
    exact h1
  | cons b rest ih =>
    intro bi processed acc s evs h1 h2
    rcases hba : batchAttempt env bi now s with ⟨r, s1⟩
    cases r with
    | ok items =>
      rw [scrapeGo_ok_step env now total nb b rest bi processed acc s evs items s1 hba]
      have hpt : ∀ (l : List OrchEvent),
          progressTrace (OrchEvent.batchEnd bi false :: l) = progressTrace l := by
        intro l; simp [progressTrace, progressOf]
      by_cases hd : bi < nb - 1
      · rw [if_pos hd]
        refine ih _ _ _ _ _ ?_ ?_
        · rw [hpt]
          show List.Chain' _ (progressTrace (OrchEvent.interBatchDelay 3000 ::
            OrchEvent.progressEv (processed + b.length) total :: OrchEvent.submitEv bi ::
            OrchEvent.progressEv processed total :: evs))
          simp only [progressTrace, List.filterMap_cons, progressOf]
          rw [List.chain'_cons', List.chain'_cons']
          refine ⟨?_, ?_, h1⟩
          · intro y hy
            simp only [List.head?_cons, Option.mem_def, Option.some.injEq] at hy
            subst hy
            simp
          · intro y hy
            exact h2 y hy
        · intro q hq
          rw [hpt] at hq
          simp only [progressTrace, List.filterMap_cons, progressOf, List.head?_cons,
            Option.mem_def, Option.some.injEq] at hq
          subst hq
          exact le_refl _
      · rw [if_neg hd]
        refine ih _ _ _ _ _ ?_ ?_
        · rw [hpt]
          simp only [progressTrace, List.filterMap_cons, progressOf]
          rw [List.chain'_cons', List.chain'_cons']
          refine ⟨?_, ?_, h1⟩
          · intro y hy
            simp only [List.head?_cons, Option.mem_def, Option.some.injEq] at hy
            subst hy
            simp
          · intro y hy
            exact h2 y hy
        · intro q hq
          rw [hpt] at hq
          simp only [progressTrace, List.filterMap_cons, progressOf, List.head?_cons,
            Option.mem_def, Option.some.injEq] at hq
          subst hq
          exact le_refl _
    | error e =>
      by_cases hq : includesStr e.message "quota" = true
      · rw [scrapeGo_quota_skip env now total nb b rest bi processed acc s evs e s1 hba hq]
        refine ih _ _ _ _ _ ?_ ?_
        · simp only [progressTrace, List.filterMap_cons, progressOf]
          rw [List.chain'_cons']
          exact ⟨h2, h1⟩
        · intro q hq2
          simp only [progressTrace, List.filterMap_cons, progressOf, List.head?_cons,
            Option.mem_def, Option.some.injEq] at hq2
          subst hq2
          exact le_refl _
      · rw [scrapeGo_nonquota_abort env now total nb b rest bi processed acc s evs e s1 hba
          (Bool.not_eq_true _ ▸ hq)]
        show List.Chain' _ (progressTrace
          (OrchEvent.submitEv bi :: OrchEvent.progressEv processed total :: evs).reverse)
        rw [progressTrace_reverse, List.chain'_reverse]
        simp only [progressTrace, List.filterMap_cons, progressOf]
        rw [List.chain'_cons']
        exact ⟨h2, h1⟩

theorem apiErrMsg_ne_quota (st : Nat) (stext : String) :
    (apiErrMsg st stext == "QUOTA_EXCEEDED") = false := by
  rw [beq_eq_false_iff_ne]
  intro h
  have h2 := congrArg String.data h
  unfold apiErrMsg at h2
  rw [String.data_append, String.data_append, String.data_append] at h2
  rw [show ("Apify API error " : String).data
    = 'A' :: ("pify API error " : String).data from rfl] at h2
  rw [show ("QUOTA_EXCEEDED" : String).data
    = 'Q' :: ("UOTA_EXCEEDED" : String).data from rfl] at h2
  rw [List.cons_append, List.cons_append, List.cons_append] at h2
  injection h2 with hc _
  exact absurd hc (by decide)

/-- Claim C10: on a service whose key list has at least two entries, every
call to `switchToNextApiKey` returns `true` and advances `currentKeyIndex`
to `(previous + 1) mod K`, regardless of the usage statistics and of the
current position; it returns `false` exactly when the key list is a
singleton (in which case the index is unchanged, since `(i+1) mod 1 = 0`).
Hence the ledger never reports a completed unsuccessful cycle for `K ≥ 2`. -/
theorem switchToNextApiKey_ring_rotation (s : ServiceState)
    (hi : s.currentKeyIndex < s.apiKeys.length) :
    (2 ≤ s.apiKeys.length →
      switchToNextApiKey s =
        (true, { s with currentKeyIndex := (s.currentKeyIndex + 1) % s.apiKeys.length }))
    ∧ (s.apiKeys.length = 1 →
      switchToNextApiKey s =
        (false, { s with currentKeyIndex := (s.currentKeyIndex + 1) % s.apiKeys.length })) :=
  ⟨fun h2 => switchToNextApiKey_two s h2 hi, fun h1 => switchToNextApiKey_single s h1 hi⟩

/-- Witness for C10 at a concrete two-key service and a concrete singleton
service. -/
theorem switchToNextApiKey_ring_rotation_witness :
    switchToNextApiKey (mkService ["a", "b"] 0) =
        (true, { mkService ["a", "b"] 0 with currentKeyIndex := 1 })
      ∧ switchToNextApiKey (mkService ["a"] 0) =
        (false, { mkService ["a"] 0 with currentKeyIndex := 0 }) := by
  constructor
  · have h := (switchToNextApiKey_ring_rotation (mkService ["a", "b"] 0) (by decide)).1
      (by decide)
    simpa using h
  · have h := (switchToNextApiKey_ring_rotation (mkService ["a"] 0) (by decide)).2 rfl
    simpa using h

/-- Claim C3 (documenting the code bug): in `waitForRunCompletion` the
`FAILED`/`ABORTED` throw sits inside the `try`, so the loop's own `catch`
swallows it and keeps polling.  With every status check answering `FAILED`
from the start, the loop issues 113 status checks (polling every 8 s until
within one poll interval of the 15-minute budget) before the failure error
finally propagates - instead of the claimed single check.  For contrast, a
`SUCCEEDED` answer terminates after one check. -/
theorem waitForRunCompletion_failed_keeps_polling :
    waitForRunCompletion (fun _ => Except.ok "FAILED") =
        ⟨Except.error ⟨"Error", "Apify run failed"⟩, 113⟩
      ∧ waitForRunCompletion (fun _ => Except.ok "ABORTED") =
        ⟨Except.error ⟨"Error", "Apify run aborted"⟩, 113⟩
      ∧ waitForRunCompletion (fun _ => Except.ok "SUCCEEDED") = ⟨Except.ok (), 1⟩ := by
  refine ⟨?_, ?_, ?_⟩ <;> decide

/-- Claim C4 (amended): when every credential yields `QUOTA_EXCEEDED`, the
request path attempts the current credential and - after the single rotation
permitted by `makeApifyRequest` - at most one further credential (the next in
ring order), then propagates `QUOTA_EXCEEDED`; it does NOT try all `K`
credentials and does NOT raise the all-keys-exhausted error for `K ≥ 2`.
The all-keys-exhausted error arises only for `K = 1`, where `rotate` returns
`false` and the failure propagates immediately after the single attempt. -/
theorem makeApifyRequest_two_key_attempts {α : Type u} (att : Nat → Except JsError α)
    (now : Nat) (s : ServiceState)
    (hi : s.currentKeyIndex < s.apiKeys.length)
    (hq : ∀ k, att k = Except.error ⟨"Error", "QUOTA_EXCEEDED"⟩) :
    (s.apiKeys.length = 1 →
      makeApifyRequest att now true s =
        (Except.error ⟨"Error", allKeysExhaustedMsg⟩,
         { updateKeyStats s (getCurrentApiKey s) false now with
             currentKeyIndex := (s.currentKeyIndex + 1) % s.apiKeys.length }))
    ∧ (2 ≤ s.apiKeys.length →
      makeApifyRequest att now true s =
        (Except.error ⟨"Error", "QUOTA_EXCEEDED"⟩,
         updateKeyStats
           { updateKeyStats s (getCurrentApiKey s) false now with
               currentKeyIndex := (s.currentKeyIndex + 1) % s.apiKeys.length }
           (getCurrentApiKey
             { updateKeyStats s (getCurrentApiKey s) false now with
                 currentKeyIndex := (s.currentKeyIndex + 1) % s.apiKeys.length })
           false now)) := by
  have hstep : makeApifyRequest att now true s =
      match switchToNextApiKey (updateKeyStats s (getCurrentApiKey s) false now) with
      | (true, s2) => makeApifyRequestNoSwitch att now s2
      | (false, s2) => (Except.error ⟨"Error", allKeysExhaustedMsg⟩, s2) := by
    unfold makeApifyRequest
    rw [hq s.currentKeyIndex]
    simp
  constructor
  · intro h1
    rw [hstep, switchToNextApiKey_single (updateKeyStats s (getCurrentApiKey s) false now) h1 hi]
    rfl
  · intro h2
    rw [hstep, switchToNextApiKey_two (updateKeyStats s (getCurrentApiKey s) false now) h2 hi]
    show makeApifyRequestNoSwitch att now
      { updateKeyStats s (getCurrentApiKey s) false now with
          currentKeyIndex := (s.currentKeyIndex + 1) % s.apiKeys.length } = _
    unfold makeApifyRequestNoSwitch
    rw [hq]

/-- Counterexample for C4 as stated: with three keys all yielding
`QUOTA_EXCEEDED`, the propagated error is `QUOTA_EXCEEDED` (not the
all-keys-exhausted error), and the third key is never attempted: its failure
counter is still 0. -/
theorem three_keys_all_quota_cex :
    (makeApifyRequest attQuota 0 true (mkService ["a", "b", "c"] 0)).1 =
        Except.error ⟨"Error", "QUOTA_EXCEEDED"⟩
      ∧ (makeApifyRequest attQuota 0 true (mkService ["a", "b", "c"] 0)).2.keyUsageStats.lookup "c"
          = some ⟨0, 0, 0⟩
      ∧ (makeApifyRequest attQuota 0 true (mkService ["a", "b", "c"] 0)).1 ≠
          Except.error ⟨"Error", allKeysExhaustedMsg⟩ := by
  refine ⟨?_, ?_, ?_⟩ <;> decide

/-- Witness for C4 at a concrete singleton-key service. -/
theorem makeApifyRequest_two_key_attempts_witness :
    makeApifyRequest attQuota 0 true (mkService ["k"] 0) =
      (Except.error ⟨"Error", allKeysExhaustedMsg⟩,
       { updateKeyStats (mkService ["k"] 0) (getCurrentApiKey (mkService ["k"] 0)) false 0 with
           currentKeyIndex :=
             ((mkService ["k"] 0).currentKeyIndex + 1) % (mkService ["k"] 0).apiKeys.length }) :=
  (makeApifyRequest_two_key_attempts attQuota 0 (mkService ["k"] 0) (by decide)
    (fun _ => rfl)).1 rfl

/-- Claim C2 (amended): on a quota-classified transport failure,
`makeApifyRequest` performs exactly one key rotation and retries the same
request once with the new credential and rotation disabled
(`makeApifyRequestNoSwitch`); when rotation is unavailable (singleton key
list) it raises the all-keys-exhausted error.  That error is NOT fatal to
the run: its message contains `quota`, so the batch loop skips the batch and
continues with the remaining batches (it does not abort the run as the spec
claims). -/
theorem makeApifyRequest_rotation_policy {α : Type u} (att : Nat → Except JsError α)
    (now : Nat) (s : ServiceState)
    (hi : s.currentKeyIndex < s.apiKeys.length)
    (hq0 : att s.currentKeyIndex = Except.error ⟨"Error", "QUOTA_EXCEEDED"⟩) :
    (2 ≤ s.apiKeys.length →
      makeApifyRequest att now true s =
        makeApifyRequestNoSwitch att now
          { updateKeyStats s (getCurrentApiKey s) false now with
              currentKeyIndex := (s.currentKeyIndex + 1) % s.apiKeys.length })
    ∧ (s.apiKeys.length = 1 →
      makeApifyRequest att now true s =
        (Except.error ⟨"Error", allKeysExhaustedMsg⟩,
         { updateKeyStats s (getCurrentApiKey s) false now with
             currentKeyIndex := (s.currentKeyIndex + 1) % s.apiKeys.length }))
    ∧ includesStr allKeysExhaustedMsg "quota" = true
    ∧ (∀ (env : OrchestratorEnv) (now2 total nb : Nat) (batch : List String)
        (rest : List (List String)) (bi processed : Nat) (acc : List Record)
        (s2 : ServiceState) (evs : List OrchEvent) (e : JsError) (s3 : ServiceState),
        batchAttempt env bi now2 s2 = (Except.error e, s3) →
        includesStr e.message "quota" = true →
        scrapeGo env now2 total nb (batch :: rest) bi processed acc s2 evs =
          scrapeGo env now2 total nb rest (bi + 1) processed acc s3
            (OrchEvent.batchEnd bi true :: OrchEvent.submitEv bi ::
              OrchEvent.progressEv processed total :: evs)) := by
  have hstep : makeApifyRequest att now true s =
      match switchToNextApiKey (updateKeyStats s (getCurrentApiKey s) false now) with
      | (true, s2) => makeApifyRequestNoSwitch att now s2
      | (false, s2) => (Except.error ⟨"Error", allKeysExhaustedMsg⟩, s2) := by
    unfold makeApifyRequest
    rw [hq0]
    simp
  refine ⟨?_, ?_, by decide, ?_⟩
  · intro h2
    rw [hstep, switchToNextApiKey_two (updateKeyStats s (getCurrentApiKey s) false now) h2 hi]
    rfl
  · intro h1
    rw [hstep, switchToNextApiKey_single (updateKeyStats s (getCurrentApiKey s) false now) h1 hi]
    rfl
  · intro env now2 total nb batch rest bi processed acc s2 evs e s3 herr hqm
    exact scrapeGo_quota_skip env now2 total nb batch rest bi processed acc s2 evs e s3 herr hqm

/-- Counterexample for C2 as stated: single key, quota failure on the first
batch, so rotation is unavailable - yet the run does not fail with the
all-keys-exhausted error.  The exhausted-message contains `quota`, the batch
is skipped, the second batch completes, and the whole run succeeds with the
second batch's records. -/
theorem exhausted_rotation_run_continues_cex :
    (scrapeProfiles envQuotaFirst 0 urls26 (mkService ["k"] 0)).result =
        Except.ok "combined-0"
      ∧ OrchEvent.batchEnd 1 false ∈
          (scrapeProfiles envQuotaFirst 0 urls26 (mkService ["k"] 0)).events
      ∧ (scrapeProfiles envQuotaFirst 0 urls26 (mkService ["k"] 0)).finalState.combinedResults
          = some ["rec"] := by
  refine ⟨?_, ?_, ?_⟩ <;> decide

/-- Witness for C2 at a concrete two-key service whose first key yields a
quota error: one rotation happens and the request is retried without further
switching. -/
theorem makeApifyRequest_rotation_policy_witness :
    makeApifyRequest attQuota 0 true (mkService ["a", "b"] 0) =
      makeApifyRequestNoSwitch attQuota 0
        { updateKeyStats (mkService ["a", "b"] 0) (getCurrentApiKey (mkService ["a", "b"] 0))
            false 0 with
            currentKeyIndex := ((mkService ["a", "b"] 0).currentKeyIndex + 1) %
              (mkService ["a", "b"] 0).apiKeys.length } :=
  (makeApifyRequest_rotation_policy attQuota 0 (mkService ["a", "b"] 0) (by decide) rfl).1
    (by decide)

/-- Claim C1 (amended): in the batch loop, an error whose message contains
the substring `quota` causes the batch to be skipped: it contributes zero
records (the accumulator is unchanged) and processing continues with every
remaining batch.  An error whose message does NOT contain `quota` aborts the
entire run immediately with the wrapped error, so the remaining batches are
never processed.  (The spec states the two cases exactly reversed.) -/
theorem scrapeProfiles_batch_error_policy (env : OrchestratorEnv) (now total nb : Nat)
    (batch : List String) (rest : List (List String)) (bi processed : Nat)
    (acc : List Record) (s : ServiceState) (evs : List OrchEvent)
    (e : JsError) (s1 : ServiceState)
    (herr : batchAttempt env bi now s = (Except.error e, s1)) :
    (includesStr e.message "quota" = true →
      scrapeGo env now total nb (batch :: rest) bi processed acc s evs =
        scrapeGo env now total nb rest (bi + 1) processed acc s1
          (OrchEvent.batchEnd bi true :: OrchEvent.submitEv bi ::
            OrchEvent.progressEv processed total :: evs))
    ∧ (includesStr e.message "quota" = false →
      scrapeGo env now total nb (batch :: rest) bi processed acc s evs =
        { result := Except.error ⟨"Error", "Failed to scrape profiles: " ++ e.message⟩
          finalState := s1
          events := (OrchEvent.submitEv bi ::
            OrchEvent.progressEv processed total :: evs).reverse }) :=
  ⟨fun hq => scrapeGo_quota_skip env now total nb batch rest bi processed acc s evs e s1 herr hq,
   fun hq => scrapeGo_nonquota_abort env now total nb batch rest bi processed acc s evs e s1 herr hq⟩

/-- Counterexample for C1 as stated: batch 0 fails with a generic 400 error
(not quota-classified).  The run aborts immediately - batch 1 is never
submitted - instead of contributing zero records and continuing. -/
theorem nonquota_error_aborts_run_cex :
    (scrapeProfiles envBad400 0 urls26 (mkService ["k"] 0)).result =
        Except.error ⟨"Error", "Failed to scrape profiles: " ++ apiErrMsg 400 "Bad Request"⟩
      ∧ OrchEvent.submitEv 1 ∉ (scrapeProfiles envBad400 0 urls26 (mkService ["k"] 0)).events
      ∧ (scrapeProfiles envBad400 0 urls26 (mkService ["k"] 0)).events =
          [OrchEvent.progressEv 0 26, OrchEvent.submitEv 0] := by
  refine ⟨?_, ?_, ?_⟩ <;> decide

/-- Witness for C1: the non-quota 400 error on the first of two batches
aborts the run with the wrapped message. -/
theorem scrapeProfiles_batch_error_policy_witness :
    scrapeGo envBad400 0 26 2 (mkBatches 25 urls26) 0 0 [] (mkService ["k"] 0) [] =
      { result := Except.error
          ⟨"Error", "Failed to scrape profiles: " ++ apiErrMsg 400 "Bad Request"⟩
        finalState := updateKeyStats (mkService ["k"] 0)
          (getCurrentApiKey (mkService ["k"] 0)) false 0
        events := [OrchEvent.progressEv 0 26, OrchEvent.submitEv 0] } := by
  have herr : batchAttempt envBad400 0 0 (mkService ["k"] 0) =
      (Except.error ⟨"Error", apiErrMsg 400 "Bad Request"⟩,
       updateKeyStats (mkService ["k"] 0) (getCurrentApiKey (mkService ["k"] 0)) false 0) := by
    decide
  have h := (scrapeProfiles_batch_error_policy envBad400 0 26 2 (urls26.take 25)
    [urls26.drop 25] 0 0 [] (mkService ["k"] 0) [] _ _ herr).2 (by decide)
  rw [show mkBatches 25 urls26 = urls26.take 25 :: [urls26.drop 25] from by decide]
  rw [h]
  rfl

/-- One-step unfolding of the retry loop. -/
theorem apifyFetchGo_succ (oracle : Nat → HttpAttempt) (retries fuel i : Nat)
    (acc : List Nat) :
    apifyFetchGo oracle retries (fuel + 1) i acc =
      match fetchTry retries i (oracle i) with
      | TryOutcome.success r => ⟨Except.ok r, acc.reverse, i + 1⟩
      | TryOutcome.looped => apifyFetchGo oracle retries fuel (i + 1) acc
      | TryOutcome.thrown e =>
        match fetchCatch retries i e with
        | CatchOutcome.rethrow e2 => ⟨Except.error e2, acc.reverse, i + 1⟩
        | CatchOutcome.retryAfterDelay d => apifyFetchGo oracle retries fuel (i + 1) (d :: acc) :=
  rfl

/-- Claim C8 (amended): transient failures are retried up to 3 attempts, but
the backoff delay `2^attempt * 1000` ms is awaited only after thrown
failures (per-attempt timeouts / network errors); a 5xx response on a
non-final attempt falls through the `catch` clause and is retried with no
delay at all.  A call that times out on the first two attempts and succeeds
on the third returns normally (delays 1000 ms, 2000 ms); three timeouts
yield the timeout error, three 5xx responses yield the generic API error. -/
theorem apifyFetch_retry_backoff_behavior :
    apifyFetchWithRetry oracleAbortOk 3 = ⟨Except.ok ⟨200, "OK", "done"⟩, [1000, 2000], 3⟩
    ∧ apifyFetchWithRetry oracle500Ok 3 = ⟨Except.ok ⟨200, "OK", "done"⟩, [], 3⟩
    ∧ apifyFetchWithRetry oracleAbort 3 = ⟨Except.error ⟨"Error", timeoutMsg⟩, [1000, 2000], 3⟩
    ∧ apifyFetchWithRetry oracle500 3 =
        ⟨Except.error ⟨"Error", apiErrMsg 500 "Internal Server Error"⟩, [], 3⟩ := by
  refine ⟨?_, ?_, ?_, ?_⟩ <;> decide

/-- Counterexample for C8 as stated: two 5xx responses followed by a success
are retried, but with NO backoff delay between the attempts - the claimed
`2^attempt * 1000` ms delays do not occur for 5xx retries. -/
theorem fivexx_retry_without_delay_cex :
    apifyFetchWithRetry oracle500Ok 3 = ⟨Except.ok ⟨200, "OK", "done"⟩, [], 3⟩
    ∧ (apifyFetchWithRetry oracle500Ok 3).delays ≠ [1000, 2000] := by
  constructor <;> decide

/-- Claim C5 (amended): a 402/429 response whose body contains the
quota/limit/usage vocabulary is classified as the distinguished
`QUOTA_EXCEEDED` error and raised after the first attempt with no retries
and no backoff; every other 4xx response is also raised after the first
attempt, PROVIDED the error message `Apify API error <status>: <statusText>`
does not contain the substring `Failed to fetch` - a 4xx response whose
status text contains that substring is misclassified as a network error and
retried (see the counterexample). -/
theorem apifyFetch_quota_and_4xx_classification (oracle : Nat → HttpAttempt)
    (st : Nat) (stext body : String)
    (h0 : oracle 0 = HttpAttempt.resp st stext body) :
    ((st = 402 ∨ st = 429) → quotaVocab body = true →
      apifyFetchWithRetry oracle 3 = ⟨Except.error ⟨"Error", "QUOTA_EXCEEDED"⟩, [], 1⟩)
    ∧ (400 ≤ st → st < 500 →
      ((st = 402 ∨ st = 429) → quotaVocab body = false) →
      includesStr (apiErrMsg st stext) "Failed to fetch" = false →
      apifyFetchWithRetry oracle 3 = ⟨Except.error ⟨"Error", apiErrMsg st stext⟩, [], 1⟩) := by
  constructor
  · rintro (rfl | rfl) hv
    · rw [apifyFetchWithRetry, show (3 : Nat) = 2 + 1 from rfl, apifyFetchGo_succ, h0]
      simp [fetchTry, fetchCatch, respOk, hv]
    · rw [apifyFetchWithRetry, show (3 : Nat) = 2 + 1 from rfl, apifyFetchGo_succ, h0]
      simp [fetchTry, fetchCatch, respOk, hv]
  · intro h400 h500 hnv hftf
    have hok : respOk st = false := by
      simp only [respOk, Bool.and_eq_false_iff, decide_eq_false_iff_not]
      omega
    have hq2 : ((st == 402 || st == 429) && quotaVocab body) = false := by
      by_cases h402 : st = 402 ∨ st = 429
      · rw [hnv h402, Bool.and_false]
      · have h4 : (st == 402) = false := beq_eq_false_iff_ne.mpr (fun h => h402 (Or.inl h))
        have h5 : (st == 429) = false := beq_eq_false_iff_ne.mpr (fun h => h402 (Or.inr h))
        rw [h4, h5, Bool.or_self, Bool.false_and]
    have h45 : (400 ≤ st && st < 500) = true := by
      simp only [Bool.and_eq_true, decide_eq_true_eq]
      exact ⟨h400, h500⟩
    have hcatch : fetchCatch 3 0 ⟨"Error", apiErrMsg st stext⟩ =
        CatchOutcome.rethrow ⟨"Error", apiErrMsg st stext⟩ := by
      unfold fetchCatch
      rw [show (⟨"Error", apiErrMsg st stext⟩ : JsError).message = apiErrMsg st stext from rfl]
      rw [apiErrMsg_ne_quota]
      rw [show ((⟨"Error", apiErrMsg st stext⟩ : JsError).name == "AbortError") = false from rfl]
      rw [hftf]
      simp
    rw [apifyFetchWithRetry, show (3 : Nat) = 2 + 1 from rfl, apifyFetchGo_succ, h0]
    simp only [fetchTry, hok, hq2, h45, Bool.false_eq_true, if_false, if_true, hcatch]
    rfl

/-- Counterexample for C5 as stated: the 4xx response
`400 "Failed to fetch"` is NOT raised immediately - its error message
matches the network-error test of the catch clause, so it is retried three
times (with backoff) and surfaced as the cannot-reach error. -/
theorem fourxx_failed_to_fetch_retried_cex :
    apifyFetchWithRetry oracle400FTF 3 =
        ⟨Except.error ⟨"Error", cannotReachMsg⟩, [1000, 2000], 3⟩
      ∧ (apifyFetchWithRetry oracle400FTF 3).attemptsUsed ≠ 1 := by
  constructor <;> decide

/-- Witness for C5: a 429 response with quota vocabulary raises
`QUOTA_EXCEEDED` on the first attempt; a plain 404 raises the generic API
error on the first attempt. -/
theorem apifyFetch_quota_and_4xx_classification_witness :
    apifyFetchWithRetry (fun _ => HttpAttempt.resp 429 "Too Many Requests"
        "Monthly usage hard limit exceeded") 3 =
      ⟨Except.error ⟨"Error", "QUOTA_EXCEEDED"⟩, [], 1⟩
    ∧ apifyFetchWithRetry (fun _ => HttpAttempt.resp 404 "Not Found" "no such actor") 3 =
      ⟨Except.error ⟨"Error", apiErrMsg 404 "Not Found"⟩, [], 1⟩ := by
  constructor
  · exact (apifyFetch_quota_and_4xx_classification _ 429 "Too Many Requests"
      "Monthly usage hard limit exceeded" rfl).1 (Or.inr rfl) (by decide)
  · exact (apifyFetch_quota_and_4xx_classification _ 404 "Not Found" "no such actor" rfl).2
      (by decide) (by decide) (by intro h; rcases h with h | h <;> omega) (by decide)

/-- Claim C6 (amended): for every URL list, `mkBatches` partitions the input
into `ceil(N/B)` consecutive batches of at most `B` URLs in input order
(their concatenation is the input), and 60 URLs yield batch sizes
`[25, 25, 10]`.  The orchestrator issues exactly `ceil(N/25)` submissions
(one per batch, with the hard-coded `BATCH_SIZE = 25`) on runs in which
every batch step succeeds - absent batch errors of ANY kind, not merely
absent quota errors: a non-quota batch error aborts the run at apify.ts:290,
so a run may contain no quota error and still issue fewer submissions (see
the counterexample). -/
theorem scrapeProfiles_batching_and_submissions
    (env : OrchestratorEnv) (runOf : Nat → Nat → ApifyRunData)
    (itemsOf : String → List Record) (now : Nat) (urls : List String) (s : ServiceState)
    (hsub : ∀ bi k, env.submit bi k = Except.ok (runOf bi k))
    (hawait : ∀ rid, env.await rid = Except.ok ())
    (hfetch : ∀ did, env.fetchItems did = Except.ok (itemsOf did)) :
    (∀ (size : Nat), 0 < size →
      (mkBatches size urls).length = (urls.length + size - 1) / size
      ∧ (mkBatches size urls).flatten = urls
      ∧ ∀ b ∈ mkBatches size urls, b.length ≤ size)
    ∧ countSubmits (scrapeProfiles env now urls s).events
        = (urls.length + BATCH_SIZE - 1) / BATCH_SIZE
    ∧ (mkBatches BATCH_SIZE urls60).map List.length = [25, 25, 10] := by
  refine ⟨?_, ?_, by decide⟩
  · intro size hs
    exact ⟨mkBatches_length size hs urls, mkBatches_flatten size hs urls,
      fun b hb => mkBatches_mem_length size urls b hb⟩
  · have h := (scrapeGo_ok_run env runOf itemsOf hsub hawait hfetch now urls.length
      (mkBatches BATCH_SIZE urls).length (mkBatches BATCH_SIZE urls) 0 0 [] s []).2.2.1
    show countSubmits (scrapeGo env now urls.length (mkBatches BATCH_SIZE urls).length
      (mkBatches BATCH_SIZE urls) 0 0 [] s []).events = (urls.length + BATCH_SIZE - 1) / BATCH_SIZE
    rw [h]
    show 0 + (mkBatches BATCH_SIZE urls).length = _
    rw [Nat.zero_add, mkBatches_length BATCH_SIZE (by decide) urls]

/-- Counterexample for C6 as stated: a 26-URL run has ceil(26/25) = 2
batches, and when its first batch fails with a generic 400 error - so no
quota error occurs anywhere in the run - the run aborts after a single
submission instead of issuing 2. -/
theorem fewer_submissions_on_nonquota_error_cex :
    countSubmits (scrapeProfiles envBad400 0 urls26 (mkService ["k"] 0)).events = 1
    ∧ (urls26.length + BATCH_SIZE - 1) / BATCH_SIZE = 2 := by
  constructor <;> decide

/-- Witness for C6: the fully successful 60-URL run issues exactly 3
submissions. -/
theorem scrapeProfiles_batching_and_submissions_witness :
    countSubmits (scrapeProfiles envOk 0 urls60 (mkService ["k"] 0)).events = 3 := by
  have h := (scrapeProfiles_batching_and_submissions envOk runOfOk itemsOfOk 0 urls60
    (mkService ["k"] 0) (fun _ _ => rfl) (fun _ => rfl) (fun _ => rfl)).2.1
  rw [h]
  decide

/-- Claim C7 (amended): for every run the reported `(processed, total)`
sequence is non-decreasing in `processed` and begins with `(0, N)` before
the first batch; on a fully successful run it is exactly the expected
interleaving - before each batch the running cumulative URL count and after
each batch the count advanced by the batch length (URL count, not record
count) - ending at `(N, N)`.  After a batch that is skipped by the quota
branch, however, no emission follows unless another batch comes after it
(see the counterexample for the final-batch case). -/
theorem scrapeProfiles_progress_sequence
    (env : OrchestratorEnv) (runOf : Nat → Nat → ApifyRunData)
    (itemsOf : String → List Record) (now : Nat) (urls : List String) (s : ServiceState)
    (hsub : ∀ bi k, env.submit bi k = Except.ok (runOf bi k))
    (hawait : ∀ rid, env.await rid = Except.ok ())
    (hfetch : ∀ did, env.fetchItems did = Except.ok (itemsOf did))
    (hne : urls ≠ []) :
    (∀ (env2 : OrchestratorEnv) (now2 : Nat) (urls2 : List String) (s2 : ServiceState),
      List.Chain' (fun a b : Nat × Nat => a.1 ≤ b.1)
        (progressTrace (scrapeProfiles env2 now2 urls2 s2).events))
    ∧ (∀ (env2 : OrchestratorEnv) (now2 : Nat) (urls2 : List String) (s2 : ServiceState),
        urls2 ≠ [] →
        (progressTrace (scrapeProfiles env2 now2 urls2 s2).events).head?
          = some (0, urls2.length))
    ∧ progressTrace (scrapeProfiles env now urls s).events
        = expectedProgress urls.length 0 (mkBatches BATCH_SIZE urls)
    ∧ (progressTrace (scrapeProfiles env now urls s).events).getLast?
        = some (urls.length, urls.length) := by
  have hmono : ∀ (env2 : OrchestratorEnv) (now2 : Nat) (urls2 : List String)
      (s2 : ServiceState),
      List.Chain' (fun a b : Nat × Nat => a.1 ≤ b.1)
        (progressTrace (scrapeProfiles env2 now2 urls2 s2).events) := by
    intro env2 now2 urls2 s2
    show List.Chain' _ (progressTrace (scrapeGo env2 now2 urls2.length
      (mkBatches BATCH_SIZE urls2).length (mkBatches BATCH_SIZE urls2) 0 0 [] s2 []).events)
    apply scrapeGo_progress_mono
    · exact List.chain'_nil
    · intro q hq
      simp [progressTrace] at hq
  have hhead : ∀ (env2 : OrchestratorEnv) (now2 : Nat) (urls2 : List String)
      (s2 : ServiceState), urls2 ≠ [] →
      (progressTrace (scrapeProfiles env2 now2 urls2 s2).events).head?
        = some (0, urls2.length) := by
    intro env2 now2 urls2 s2 hne2
    cases urls2 with
    | nil => exact absurd rfl hne2
    | cons u us =>
      have hb : mkBatches BATCH_SIZE (u :: us) =
          (u :: us).take BATCH_SIZE ::
            mkBatchesGo BATCH_SIZE us.length ((u :: us).drop BATCH_SIZE) := rfl
      obtain ⟨t, ht⟩ := scrapeGo_events_start env2 now2 (u :: us).length
        (mkBatches BATCH_SIZE (u :: us)).length ((u :: us).take BATCH_SIZE)
        (mkBatchesGo BATCH_SIZE us.length ((u :: us).drop BATCH_SIZE)) 0 0 [] s2 []
      show (progressTrace (scrapeGo env2 now2 (u :: us).length
        (mkBatches BATCH_SIZE (u :: us)).length (mkBatches BATCH_SIZE (u :: us))
        0 0 [] s2 []).events).head? = some (0, (u :: us).length)
      rw [hb] at ht ⊢
      rw [← ht]
      simp [progressTrace, progressOf]
  have hexact : progressTrace (scrapeProfiles env now urls s).events
      = expectedProgress urls.length 0 (mkBatches BATCH_SIZE urls) := by
    have h := (scrapeGo_ok_run env runOf itemsOf hsub hawait hfetch now urls.length
      (mkBatches BATCH_SIZE urls).length (mkBatches BATCH_SIZE urls) 0 0 [] s []).2.2.2
    show progressTrace (scrapeGo env now urls.length (mkBatches BATCH_SIZE urls).length
      (mkBatches BATCH_SIZE urls) 0 0 [] s []).events = _
    rw [h]
    simp [progressTrace]
  have hbne : mkBatches BATCH_SIZE urls ≠ [] := by
    cases urls with
    | nil => exact absurd rfl hne
    | cons u us => simp [mkBatches, mkBatchesGo]
  have hlast : (progressTrace (scrapeProfiles env now urls s).events).getLast?
      = some (urls.length, urls.length) := by
    rw [hexact, expectedProgress_getLast urls.length (mkBatches BATCH_SIZE urls) 0 hbne]
    rw [mkBatches_sum_length BATCH_SIZE (by decide) urls, Nat.zero_add]
  exact ⟨hmono, hhead, hexact, hlast⟩

/-- Counterexample for C7 as stated: batch 0 succeeds, the final batch 1 is
skipped by the quota branch.  The trace ends with the completion of batch 1;
no `onProgress` emission follows it, contradicting the claim that an
emission follows every batch completion. -/
theorem no_progress_after_skipped_last_batch_cex :
    (scrapeProfiles envQuotaSecond 0 urls26 (mkService ["k"] 0)).events =
        [OrchEvent.progressEv 0 26, OrchEvent.submitEv 0, OrchEvent.progressEv 25 26,
         OrchEvent.interBatchDelay 3000, OrchEvent.batchEnd 0 false,
         OrchEvent.progressEv 25 26, OrchEvent.submitEv 1, OrchEvent.batchEnd 1 true]
      ∧ (scrapeProfiles envQuotaSecond 0 urls26 (mkService ["k"] 0)).events.getLast? =
          some (OrchEvent.batchEnd 1 true) := by
  constructor <;> decide

/-- Witness for C7: the fully successful 60-URL run ends its progress
sequence at `(60, 60)`. -/
theorem scrapeProfiles_progress_sequence_witness :
    (progressTrace (scrapeProfiles envOk 0 urls60 (mkService ["k"] 0)).events).getLast? =
      some (60, 60) := by
  have h := (scrapeProfiles_progress_sequence envOk runOfOk itemsOfOk 0 urls60
    (mkService ["k"] 0) (fun _ _ => rfl) (fun _ => rfl) (fun _ => rfl) (by decide)).2.2.2
  rw [h]
  decide

/-- Claim C9: a completed `scrapeProfiles` run returns the synthetic id
`combined-<now>` and stores the aggregated records; `getDatasetItems` on
that id then takes the cached branch: it returns the cached sequence, leaves
the state unchanged, and issues zero network requests - for ANY transport
oracle and clock, hence a second call is the identical expression and yields
the identical result, with no network call on either invocation. -/
theorem getDatasetItems_combined_cached_idempotent
    (env : OrchestratorEnv) (runOf : Nat → Nat → ApifyRunData)
    (itemsOf : String → List Record) (now : Nat) (urls : List String) (s : ServiceState)
    (hsub : ∀ bi k, env.submit bi k = Except.ok (runOf bi k))
    (hawait : ∀ rid, env.await rid = Except.ok ())
    (hfetch : ∀ did, env.fetchItems did = Except.ok (itemsOf did)) :
    ∃ rs : List Record,
      (scrapeProfiles env now urls s).result = Except.ok ("combined-" ++ toString now)
      ∧ (scrapeProfiles env now urls s).finalState.combinedResults = some rs
      ∧ ∀ (att1 att2 : Nat → Except JsError (List Record)) (n1 n2 : Nat),
          getDatasetItems att1 n1 (scrapeProfiles env now urls s).finalState
              ("combined-" ++ toString now)
            = (Except.ok rs, (scrapeProfiles env now urls s).finalState, 0)
          ∧ getDatasetItems att2 n2 (scrapeProfiles env now urls s).finalState
              ("combined-" ++ toString now)
            = (Except.ok rs, (scrapeProfiles env now urls s).finalState, 0) := by
  obtain ⟨h1, ⟨rs, h2⟩, -, -⟩ := scrapeGo_ok_run env runOf itemsOf hsub hawait hfetch now
    urls.length (mkBatches BATCH_SIZE urls).length (mkBatches BATCH_SIZE urls) 0 0 [] s []
  have h1x : (scrapeProfiles env now urls s).result
      = Except.ok ("combined-" ++ toString now) := h1
  have h2x : (scrapeProfiles env now urls s).finalState.combinedResults = some rs := h2
  have hcache : ∀ (att : Nat → Except JsError (List Record)) (n : Nat),
      getDatasetItems att n (scrapeProfiles env now urls s).finalState
        ("combined-" ++ toString now)
      = (Except.ok rs, (scrapeProfiles env now urls s).finalState, 0) := by
    intro att n
    unfold getDatasetItems
    rw [strStartsWith_append, h2x]
    simp
  exact ⟨rs, h1x, h2x, fun att1 att2 n1 n2 => ⟨hcache att1 n1, hcache att2 n2⟩⟩

/-- Witness for C9: after the successful 60-URL run, fetching the synthetic
id succeeds from the cache with zero network requests even when the
transport oracle always fails. -/
theorem getDatasetItems_combined_cached_idempotent_witness :
    getDatasetItems (fun _ => Except.error ⟨"Error", "network down"⟩) 7
        (scrapeProfiles envOk 0 urls60 (mkService ["k"] 0)).finalState "combined-0" =
      (Except.ok [], (scrapeProfiles envOk 0 urls60 (mkService ["k"] 0)).finalState, 0) := by
  obtain ⟨rs, h1, h2, h3⟩ := getDatasetItems_combined_cached_idempotent envOk runOfOk itemsOfOk
    0 urls60 (mkService ["k"] 0) (fun _ _ => rfl) (fun _ => rfl) (fun _ => rfl)
  have hc : (scrapeProfiles envOk 0 urls60 (mkService ["k"] 0)).finalState.combinedResults
      = some [] := by decide
  rw [hc] at h2
  injection h2 with h5
  subst h5
  exact (h3 (fun _ => Except.error ⟨"Error", "network down"⟩)
    (fun _ => Except.error ⟨"Error", "network down"⟩) 7 7).1
